import Mathlib

/-!
Verification development for the service-management tool in `services.py`.

The program is a single-threaded CLI that reconciles a declared service
configuration against on-disk activation links, a cron job table and a
persisted state file, and drives an encrypt-and-sync backup pipeline over a
temporarily mounted S3 bucket.

The embedding below translates each relevant Python function into a Lean
function over an explicit `World` state.  External effects (subprocess
invocations, the filesystem, the environment, glob expansion, template
rendering, encryption) are represented as fields of `World`: data fields for
state the program reads and writes, oracle functions for collaborator
behaviour the program only observes.  Exceptions are modelled by threading an
`Option Err` alongside the state, mirroring Python's propagate-on-raise
control flow: once a step yields `some e`, the remaining statements of the
Python function body do not execute.
-/

/-- Errors raised by the program, mirroring the Python exceptions that can
escape each modelled function: `processError` is `CalledProcessError` from
`subprocess.run` + `check_returncode`, `nameError` is the `NameError` raised
by evaluating the unbound variables `fullpath` / `dst` in `deploy`,
`attributeError` is `AttributeError` from attribute access on `None`,
`fileNotFound` is `FileNotFoundError` from `open` on a missing path, and
`cryptError` stands for a failure inside `xcrypt` (unreadable source or a
KMS/stream failure) identified by the source path. -/
inductive Err where
  | processError
  | nameError
  | attributeError
  | fileNotFound (path : String)
  | cryptError (path : String)
deriving DecidableEq

/-- Representation of a configured service, mirroring class `Service`:
`__init__` reads each property with a `dict.get` default (`[]` for the list
properties, `""` for `crontab`), stores the `deployed` flag loaded from the
state file, and initialises `selected` to `False`. -/
structure Service where
  name : String
  start : List String := []
  stop : List String := []
  quadlets : List String := []
  crontab : String := ""
  backups : List String := []
  secret_files : List String := []
  deployed : Bool := false
  selected : Bool := false
deriving DecidableEq

/-- Parsed secrets tree, restricted to the keys the program dereferences:
`secrets["apis"]["aws"]["key"]`, `["secret"]`, and
`secrets["services"]["backup"]["key_arn"]`, `["bucket"]`, `["region"]`. -/
structure SecretsTree where
  awsKey : String
  awsSecret : String
  keyArn : String
  bucket : String
  region : String
deriving DecidableEq

/-- Association-list lookup with a default, mirroring Python `dict.get(k, d)`. -/
def assocGetD {α : Type} : List (String × α) → String → α → α
  | [], _, d => d
  | (k, v) :: rest, key, d => if k == key then v else assocGetD rest key d

/-- Association-list lookup, mirroring Python `dict[k]` access that can miss. -/
def assocGet {α : Type} : List (String × α) → String → Option α
  | [], _ => none
  | (k, v) :: rest, key => if k == key then some v else assocGet rest key

/-- Python `dict` assignment `d[k] = v`: an existing key keeps its position
and has its value replaced, a new key is appended at the end. -/
def dictInsert (d : List (String × String)) (k v : String) : List (String × String) :=
  if d.any (fun p => p.1 == k) then d.map (fun p => if p.1 == k then (k, v) else p)
  else d ++ [(k, v)]

/-- Drop an environment variable, mirroring `del os.environ[k]` (the program
only deletes keys it set itself just before, so the missing-key `KeyError`
case cannot occur on the modelled paths). -/
def envDel (env : List (String × String)) (k : String) : List (String × String) :=
  env.filter (fun p => p.1 != k)

/-- Test whether an environment variable is present. -/
def envHas (env : List (String × String)) (k : String) : Bool :=
  env.any (fun p => p.1 == k)

/-- Base filename of a path, mirroring `os.path.basename`. -/
def basename (p : String) : String :=
  (p.splitOn "/").getLast?.getD p

/-- The world the program acts on.  Data fields hold state the program reads
and writes (the in-memory service list, the activation-directory symlinks as
a map from link filename to target, the installed cron table, the persisted
state file, the local filesystem as a path-to-contents map, the process
environment additions, the trace of external commands issued, and the mount
status of the backup bucket).  Oracle fields fix the behaviour of external
collaborators: `execOk` decides which external commands exit 0, `secretsDoc`
is the parse of `secrets.yml` (`none` when the file is missing),
`render` is the Jinja2 rendering of a template text against the secrets tree,
`globMatches` is `glob.iglob` expansion, `cryptOk` decides whether `xcrypt`
succeeds on a given source path, and `remote` is the content of the S3
bucket as seen under the mount point. -/
structure World where
  services : List Service := []
  links : List (String × String) := []
  cronTable : String := ""
  stateFile : Option (List (String × Bool)) := none
  files : List (String × String) := []
  env : List (String × String) := []
  trace : List (List String) := []
  mountDirExists : Bool := false
  mountLive : Bool := false
  execOk : List String → Bool := fun _ => true
  secretsDoc : Option SecretsTree := none
  render : String → SecretsTree → String := fun t _ => t
  globMatches : String → List String := fun _ => []
  cryptOk : String → Bool := fun _ => true
  remote : List (String × String) := []

/-- Mirror of `run(cmd, checked)`: the subprocess is always invoked (appended
to the trace); with `checked = true` a non-zero exit raises
`CalledProcessError` via `check_returncode`, otherwise the boolean success is
returned. -/
def runCmd (w : World) (cmd : List String) (checked : Bool) : World × Except Err Bool :=
  let w1 := { w with trace := w.trace ++ [cmd] }
  if checked && !w.execOk cmd then (w1, Except.error Err.processError)
  else (w1, Except.ok (w.execOk cmd))

/-- Mirror of `write_state`: rewrite the state file with the map from service
name to in-memory `deployed` flag. -/
def write_state (w : World) : World :=
  { w with stateFile := some (w.services.map (fun s => (s.name, s.deployed))) }

/-- Mirror of `reload`: `systemctl --user daemon-reload`, checked. -/
def reloadOp (w : World) : World × Option Err :=
  match runCmd w ["systemctl", "--user", "daemon-reload"] true with
  | (w1, Except.error e) => (w1, some e)
  | (w1, Except.ok _) => (w1, none)

/-- Loop body of `start`: for each selected service with a non-empty start
list, issue one batched checked `systemctl --user start` over all its start
targets; a raised `CalledProcessError` aborts the remainder of the loop. -/
def startLoop : List Service → World → World × Option Err
  | [], w => (w, none)
  | s :: rest, w =>
    if s.selected && !s.start.isEmpty then
      match runCmd w (["systemctl", "--user", "start"] ++ s.start) true with
      | (w1, Except.error e) => (w1, some e)
      | (w1, Except.ok _) => startLoop rest w1
    else startLoop rest w

/-- Mirror of `start(args)`. -/
def startOp (w : World) : World × Option Err := startLoop w.services w

/-- Loop body of `stop`, symmetric to `startLoop` over the stop targets. -/
def stopLoop : List Service → World → World × Option Err
  | [], w => (w, none)
  | s :: rest, w =>
    if s.selected && !s.stop.isEmpty then
      match runCmd w (["systemctl", "--user", "stop"] ++ s.stop) true with
      | (w1, Except.error e) => (w1, some e)
      | (w1, Except.ok _) => stopLoop rest w1
    else stopLoop rest w

/-- Mirror of `stop(args)`. -/
def stopOp (w : World) : World × Option Err := stopLoop w.services w

/-- Mirror of `restart(args)`: `stop(args)` then `start(args)`.  An exception
raised during the stop phase propagates out of `restart` before `start` is
reached. -/
def restartOp (w : World) : World × Option Err :=
  match stopOp w with
  | (w1, some e) => (w1, some e)
  | (w1, none) => startOp w1

/-- A printed status row. -/
structure Row where
  name : String
  deployed : String
  running : String
deriving DecidableEq

/-- Loop body of `status`: one row per configured service.  A not-deployed
service is reported `no`/`no` with no scheduler query; a deployed service
with start targets is queried with an unchecked `systemctl --user is-active`
over all its start targets and reported running iff the query exits 0; a
deployed service without start targets is reported running. -/
def statusLoop : List Service → World → World × List Row
  | [], w => (w, [])
  | s :: rest, w =>
    let step : World × Row :=
      if s.deployed then
        if !s.start.isEmpty then
          match runCmd w (["systemctl", "--user", "is-active"] ++ s.start) false with
          | (w1, Except.ok b) => (w1, ⟨s.name, "yes", if b then "yes" else "no"⟩)
          | (w1, Except.error _) => (w1, ⟨s.name, "yes", "no"⟩)
        else (w, ⟨s.name, "yes", "yes"⟩)
      else (w, ⟨s.name, "no", "no"⟩)
    let rec2 := statusLoop rest step.1
    (rec2.1, step.2 :: rec2.2)

/-- Mirror of `status(args)`: returns the final world and the printed rows. -/
def statusOp (w : World) : World × List Row := statusLoop w.services w

/-- Per-service status row as the specification describes it, as a pure
function of the service and the command oracle; used to compare `statusOp`
against the spec sentence. -/
def statusRowSpec (execOk : List String → Bool) (s : Service) : Row :=
  if s.deployed then
    if !s.start.isEmpty then
      ⟨s.name, "yes", if execOk (["systemctl", "--user", "is-active"] ++ s.start) then "yes" else "no"⟩
    else ⟨s.name, "yes", "yes"⟩
  else ⟨s.name, "no", "no"⟩

/-- The scheduler queries `status` issues, in order: one `is-active` batch per
deployed service with a non-empty start list. -/
def statusQueries : List Service → List (List String)
  | [] => []
  | s :: rest =>
    if s.deployed && !s.start.isEmpty then
      (["systemctl", "--user", "is-active"] ++ s.start) :: statusQueries rest
    else statusQueries rest

/-- Content of the temporary crontab file written by `crontab(args)`: the
concatenation, in configuration order, of `service.crontab` for every
deployed service whose entry is non-empty (`if service.deployed and
service.crontab`). -/
def cronConcat : List Service → String
  | [] => ""
  | s :: rest => (if s.deployed && s.crontab != "" then s.crontab else "") ++ cronConcat rest

/-- Mirror of `crontab(args)`: write the full table for all deployed services
to a temporary file, dry-run check it with `crontab -n`, then install it with
`crontab <file>`, replacing the whole live table in that single invocation.
The temporary file's content stands in for its name in the traced commands;
the live table is only ever replaced wholesale, on success of the install
command. -/
def crontabOp (w : World) : World × Option Err :=
  let content := cronConcat w.services
  match runCmd w ["crontab", "-n", content] true with
  | (w1, Except.error e) => (w1, some e)
  | (w1, Except.ok _) =>
    match runCmd w1 ["crontab", content] true with
    | (w2, Except.error e) => (w2, some e)
    | (w2, Except.ok _) => ({ w2 with cronTable := content }, none)

/-- Inner loop of `deploy` over one service's quadlets.  The Python body
computes `source`, `filename` and `destination` from the quadlet path and
then calls `os.symlink(fullpath, dst)` — but `fullpath` and `dst` are bound
nowhere, so evaluating the call's arguments raises `NameError` on the first
iteration and no symlink is ever created. -/
def deployQuadlets : List String → Option Err
  | [] => none
  | _ :: _ => some Err.nameError

/-- Loop of `deploy` over the service list: each selected, not-yet-deployed
service has its quadlets processed and is then marked deployed in memory; a
raised exception aborts the loop, leaving the remaining services untouched
(services already marked keep their in-memory mark). -/
def deployLoop : List Service → List Service × Option Err
  | [] => ([], none)
  | s :: rest =>
    if s.selected && !s.deployed then
      match deployQuadlets s.quadlets with
      | some e => (s :: rest, some e)
      | none =>
        let r := deployLoop rest
        ({ s with deployed := true } :: r.1, r.2)
    else
      let r := deployLoop rest
      (s :: r.1, r.2)

/-- Mirror of `load_templates(args)`, inner loop over one deployed service's
`secret_files`: each path `p` is sourced from `p + ".jinja"`; a missing
source raises `FileNotFoundError`; otherwise the content is stored in the
templates dict. -/
def loadTemplatesService (files : List (String × String)) :
    List String → List (String × String) → Except Err (List (String × String))
  | [], acc => Except.ok acc
  | p :: rest, acc =>
    match assocGet files (p ++ ".jinja") with
    | none => Except.error (Err.fileNotFound (p ++ ".jinja"))
    | some content => loadTemplatesService files rest (dictInsert acc p content)

/-- Mirror of `load_templates(args)`, outer loop over the services: only
deployed services contribute templates.  The subsequent construction of the
Jinja2 environment maps each stored source text to a template object and is
modelled as the identity on the dict. -/
def loadTemplatesLoop (files : List (String × String)) :
    List Service → List (String × String) → Except Err (List (String × String))
  | [], acc => Except.ok acc
  | s :: rest, acc =>
    if s.deployed then
      match loadTemplatesService files s.secret_files acc with
      | Except.error e => Except.error e
      | Except.ok acc1 => loadTemplatesLoop files rest acc1
    else loadTemplatesLoop files rest acc

/-- Mirror of `load_templates(args)`. -/
def load_templates (w : World) : Except Err (List (String × String)) :=
  loadTemplatesLoop w.files w.services []

/-- Output phase of `secrets(args)`: open each templated path for writing and
dump the rendering of its template against the secrets tree. -/
def renderAll (sec : SecretsTree) : List (String × String) → World → World
  | [], w => w
  | nt :: rest, w =>
    renderAll sec rest { w with files := dictInsert w.files nt.1 (w.render nt.2 sec) }

/-- Mirror of `secrets(args)`: `load_secrets()` (raising `FileNotFoundError`
when `secrets.yml` is missing), then `load_templates(args)`, and only then
the write loop over the loaded templates; an exception from either loading
step propagates before any output file is opened. -/
def secretsOp (w : World) : World × Option Err :=
  match w.secretsDoc with
  | none => (w, some (Err.fileNotFound "secrets.yml"))
  | some sec =>
    match load_templates w with
    | Except.error e => (w, some e)
    | Except.ok templates => (renderAll sec templates w, none)

/-- Mirror of `deploy(args)`: the per-service link loop, then — only when no
exception escaped the loop — `crontab(args)`, `secrets(args)`,
`write_state(args)` and `reload(args)` in that order. -/
def deployOp (w : World) : World × Option Err :=
  match deployLoop w.services with
  | (svcs, some e) => ({ w with services := svcs }, some e)
  | (svcs, none) =>
    match crontabOp { w with services := svcs } with
    | (w2, some e) => (w2, some e)
    | (w2, none) =>
      match secretsOp w2 with
      | (w3, some e) => (w3, some e)
      | (w3, none) => reloadOp (write_state w3)

/-- Removal of one quadlet link during `undeploy`: `os.remove` on the link
destination, with `FileNotFoundError` swallowed (absence is treated as
already undone). -/
def removeLink (links : List (String × String)) (filename : String) :
    List (String × String) :=
  links.filter (fun p => p.1 != filename)

/-- Removal of all of one service's quadlet links during `undeploy`. -/
def removeQuadlets : List String → List (String × String) → List (String × String)
  | [], links => links
  | q :: rest, links => removeQuadlets rest (removeLink links (basename q))

/-- Loop of `undeploy` over the service list: each selected, deployed service
has its quadlet links removed and is marked not deployed in memory. -/
def undeployLoop : List Service → List (String × String) →
    List Service × List (String × String)
  | [], links => ([], links)
  | s :: rest, links =>
    if s.selected && s.deployed then
      let links1 := removeQuadlets s.quadlets links
      let r := undeployLoop rest links1
      ({ s with deployed := false } :: r.1, r.2)
    else
      let r := undeployLoop rest links
      (s :: r.1, r.2)

/-- Mirror of `undeploy(args)`: `stop(args)` first (an exception there aborts
everything after it), then the link-removal loop, then `crontab(args)`,
`write_state(args)` and `reload(args)` — secrets are not re-rendered. -/
def undeployOp (w : World) : World × Option Err :=
  match stopOp w with
  | (w1, some e) => (w1, some e)
  | (w1, none) =>
    let r := undeployLoop w1.services w1.links
    let w2 := { w1 with services := r.1, links := r.2 }
    match crontabOp w2 with
    | (w3, some e) => (w3, some e)
    | (w3, none) => reloadOp (write_state w3)

/-- The s3fs mount command built by `mount_bucket` (non-verbose form). -/
def s3fsCmd (bucket region : String) : List String :=
  ["s3fs", "-o", "use_sse", "-o", "endpoint=" ++ region,
   "-o", "url=https://s3." ++ region ++ ".amazonaws.com", bucket, "mnt"]

/-- The rsync command built by `backup` for one service (non-verbose form);
the scratch directory and mount point stand in as fixed names. -/
def rsyncCmd (name : String) : List String :=
  ["rsync", "--recursive", "--delete-during", "--whole-file", "--fsync",
   "tmp/", "mnt/" ++ name]

/-- Encryption of the glob matches of one backup pattern via `xcrypt`: each
source file is streamed through envelope encryption into the scratch
directory; a failure raises and aborts the remainder. -/
def encryptSources (w : World) : List String → Option Err
  | [] => none
  | src :: rest =>
    if w.cryptOk src then encryptSources w rest
    else some (Err.cryptError src)

/-- Encryption loop over one service's backup patterns. -/
def encryptPatterns (w : World) : List String → Option Err
  | [] => none
  | pat :: rest =>
    match encryptSources w (w.globMatches pat) with
    | some e => some e
    | none => encryptPatterns w rest

/-- Per-service loop of `backup`: each deployed service with backup patterns
has its collected files encrypted into a scratch directory and the scratch
contents mirrored to `<mount>/<service-name>` with a checked rsync; an
exception from either step propagates and aborts the loop. -/
def backupLoop : List Service → World → World × Option Err
  | [], w => (w, none)
  | s :: rest, w =>
    if s.deployed && !s.backups.isEmpty then
      match encryptPatterns w s.backups with
      | some e => (w, some e)
      | none =>
        match runCmd w (rsyncCmd s.name) true with
        | (w1, Except.error e) => (w1, some e)
        | (w1, Except.ok _) => backupLoop rest w1
    else backupLoop rest w

/-- Mirror of `backup(args)`: load the secrets (raising if `secrets.yml` is
missing), set the two AWS credential variables in the environment, create the
temporary mount directory and run the checked s3fs mount, run the per-service
encrypt-and-sync loop, and then — only reached when every prior statement
completed without raising — unmount, remove the mount directory and delete
the two credential variables.  There is no `try`/`finally`: an exception from
any step propagates immediately, skipping every later statement. -/
def backupOp (w : World) : World × Option Err :=
  match w.secretsDoc with
  | none => (w, some (Err.fileNotFound "secrets.yml"))
  | some sec =>
    let wE := { w with
      env := dictInsert (dictInsert w.env "AWS_ACCESS_KEY_ID" sec.awsKey)
        "AWS_SECRET_ACCESS_KEY" sec.awsSecret }
    let wD := { wE with mountDirExists := true }
    match runCmd wD (s3fsCmd sec.bucket sec.region) true with
    | (w1, Except.error e) => (w1, some e)
    | (w1, Except.ok _) =>
      let wM := { w1 with mountLive := true }
      match backupLoop wM.services wM with
      | (w2, some e) => (w2, some e)
      | (w2, none) =>
        match runCmd w2 ["fusermount", "-u", "mnt"] true with
        | (w3, Except.error e) => (w3, some e)
        | (w3, Except.ok _) =>
          let wU := { w3 with mountLive := false, mountDirExists := false }
          ({ wU with
              env := envDel (envDel wU.env "AWS_ACCESS_KEY_ID")
                "AWS_SECRET_ACCESS_KEY" }, none)

/-- Per-service loop of `fetch`: for each selected service, `xcrypt` decrypts
`<mount>/<service-name>/<file>` into `<file>` in the current directory; a
missing remote object raises `FileNotFoundError` from opening the source, a
stream failure raises from the decryptor, and either exception aborts the
loop. -/
def fetchLoop (file : String) : List Service → World → World × Option Err
  | [], w => (w, none)
  | s :: rest, w =>
    if s.selected then
      let src := s.name ++ "/" ++ file
      match assocGet w.remote src with
      | none => (w, some (Err.fileNotFound src))
      | some content =>
        if w.cryptOk src then
          fetchLoop file rest { w with files := dictInsert w.files file content }
        else (w, some (Err.cryptError src))
    else fetchLoop file rest w

/-- Mirror of `fetch(args)`: same credential injection, mount, loop, unmount
and credential removal sequence as `backup`, with the decrypt loop in the
middle and likewise no `try`/`finally` around any of it. -/
def fetchOp (file : String) (w : World) : World × Option Err :=
  match w.secretsDoc with
  | none => (w, some (Err.fileNotFound "secrets.yml"))
  | some sec =>
    let wE := { w with
      env := dictInsert (dictInsert w.env "AWS_ACCESS_KEY_ID" sec.awsKey)
        "AWS_SECRET_ACCESS_KEY" sec.awsSecret }
    let wD := { wE with mountDirExists := true }
    match runCmd wD (s3fsCmd sec.bucket sec.region) true with
    | (w1, Except.error e) => (w1, some e)
    | (w1, Except.ok _) =>
      let wM := { w1 with mountLive := true }
      match fetchLoop file wM.services wM with
      | (w2, some e) => (w2, some e)
      | (w2, none) =>
        match runCmd w2 ["fusermount", "-u", "mnt"] true with
        | (w3, Except.error e) => (w3, some e)
        | (w3, Except.ok _) =>
          let wU := { w3 with mountLive := false, mountDirExists := false }
          ({ wU with
              env := envDel (envDel wU.env "AWS_ACCESS_KEY_ID")
                "AWS_SECRET_ACCESS_KEY" }, none)

/-- Raw service properties as read from `services.yml`, before the defaults
`Service.__init__` applies via `dict.get`; `none` is an absent key. -/
structure Props where
  start : Option (List String) := none
  stop : Option (List String) := none
  quadlets : Option (List String) := none
  crontab : Option String := none
  backups : Option (List String) := none
  secretfiles : Option (List String) := none
deriving DecidableEq

/-- Mirror of `Service.__init__`: apply the `dict.get` defaults. -/
def mkService (name : String) (p : Props) (deployed : Bool) : Service :=
  { name := name
    start := p.start.getD []
    stop := p.stop.getD []
    quadlets := p.quadlets.getD []
    crontab := p.crontab.getD ""
    backups := p.backups.getD []
    secret_files := p.secretfiles.getD []
    deployed := deployed
    selected := false }

/-- Parsed YAML state document: the top-level mapping of `.state.yml`, whose
`deployed` key (when present) maps service names to booleans. -/
def StateDoc : Type := List (String × List (String × Bool))

/-- Mirror of the state-loading part of `load_services` plus the `Service`
construction.  The first argument is the parsed `services.yml` mapping; the
second describes the state file: `none` when the file is missing
(`FileNotFoundError` is caught and `state` keeps its initial `{}` value), and
`some parsed` when it exists, where `parsed` is the `yaml.safe_load` result —
`none` for an empty document (YAML null parses to Python `None`).  In the
null case the subsequent `state.get("deployed", {})` is attribute access on
`None` and raises `AttributeError`. -/
def load_services (cfg : List (String × Props))
    (stateFile : Option (Option StateDoc)) : Except Err (List Service) :=
  let state : Option StateDoc :=
    match stateFile with
    | none => some []
    | some parsed => parsed
  match state with
  | none => Except.error Err.attributeError
  | some doc =>
    let deployed := assocGetD doc "deployed" []
    Except.ok (cfg.map (fun np => mkService np.1 np.2 (assocGetD deployed np.1 false)))

/-! Concrete worlds used by the closed theorems below. -/

/-- A concrete secrets tree. -/
def sec0 : SecretsTree :=
  { awsKey := "AKIA0", awsSecret := "sekrit", keyArn := "arn:aws:kms:key",
    bucket := "backups", region := "eu-west-1" }

/-- One selected, not-yet-deployed service with a single quadlet. -/
def exampleDeployNew : World :=
  { services := [{ name := "web", quadlets := ["web.container"], selected := true }]
    secretsDoc := some sec0 }

/-- One already-deployed service, selected again, with its link installed,
its crontab entry live and its state entry persisted. -/
def exampleDeployAgain : World :=
  { services := [{ name := "web", quadlets := ["web.container"],
                   crontab := "0 1 * * * job\n", deployed := true, selected := true }]
    links := [("web.container", "/srv/web.container")]
    cronTable := "0 1 * * * job\n"
    stateFile := some [("web", true)]
    secretsDoc := some sec0 }

/-- A second selected, not-yet-deployed service with a quadlet. -/
def exampleDeployFresh : World :=
  { services := [{ name := "db", quadlets := ["db.container"], selected := true }]
    secretsDoc := some sec0 }

/-- Two selected, not-yet-deployed services, each with a quadlet. -/
def exampleDeployTwo : World :=
  { services := [{ name := "web", quadlets := ["web.container"], selected := true },
                 { name := "db", quadlets := ["db.container"], selected := true }]
    secretsDoc := some sec0 }

/-- A selected service with a quadlet-free configuration and a crontab entry,
so that deploy converges without touching the broken link step. -/
def exampleDeployConverge : World :=
  { services := [{ name := "web", crontab := "0 1 * * * job\n", selected := true }]
    secretsDoc := some sec0 }

/-- A deployed service about to be undeployed. -/
def exampleUndeployConverge : World :=
  { services := [{ name := "web", quadlets := ["web.container"],
                   crontab := "0 1 * * * job\n", deployed := true, selected := true }]
    links := [("web.container", "/srv/web.container")]
    cronTable := "0 1 * * * job\n"
    stateFile := some [("web", true)] }

/-- A selected service whose stop command fails (every command containing
`stop` exits non-zero). -/
def exampleRestartStopFails : World :=
  { services := [{ name := "web", start := ["web.service"], stop := ["web.service"],
                   deployed := true, selected := true }]
    execOk := fun cmd => !(cmd.contains "stop") }

/-- The same selection with all commands succeeding. -/
def exampleRestartOk : World :=
  { services := [{ name := "web", start := ["web.service"], stop := ["web.service"],
                   deployed := true, selected := true }] }

/-- A backup run in which the mount succeeds and the encryption of the one
collected file fails. -/
def exampleBackupCryptFails : World :=
  { services := [{ name := "web", backups := ["data/*"], deployed := true }]
    secretsDoc := some sec0
    globMatches := fun pat => if pat == "data/*" then ["data/db.sqlite"] else []
    cryptOk := fun _ => false }

/-- A fetch of a file that does not exist under the service's remote prefix. -/
def exampleFetchMissing : World :=
  { services := [{ name := "web", deployed := true, selected := true }]
    secretsDoc := some sec0 }

/-- A deployed service listing a secret file whose template source is absent
from the filesystem. -/
def exampleSecretsMissingTemplate : World :=
  { services := [{ name := "web", secret_files := ["app.env"], deployed := true }]
    files := [("other.txt", "hello")]
    secretsDoc := some sec0 }

/-- The spec's status scenario: one deployed service with a start target,
one not-deployed service, one deployed service without start targets. -/
def exampleStatusMixed : World :=
  { services := [{ name := "web", start := ["web.service"], deployed := true },
                 { name := "batch" },
                 { name := "worker", deployed := true }]
    execOk := fun cmd => !(cmd.contains "is-active") }

/-! Helper lemmas. -/

/-- The render loop of `secrets` writes only to the filesystem: the cron
table and the in-memory service list are untouched. -/
theorem renderAll_frame (sec : SecretsTree) (ts : List (String × String)) :
    ∀ w : World, (renderAll sec ts w).cronTable = w.cronTable ∧
      (renderAll sec ts w).services = w.services := by
  induction ts with
  | nil => intro w; exact ⟨rfl, rfl⟩
  | cons nt rest ih => intro w; exact ih _

/-- `secrets` never changes the cron table or the service list, whether it
succeeds or raises. -/
theorem secretsOp_frame (w : World) :
    (secretsOp w).1.cronTable = w.cronTable ∧ (secretsOp w).1.services = w.services := by
  unfold secretsOp
  rcases hs : w.secretsDoc with _ | sec
  · exact ⟨rfl, rfl⟩
  · rcases hl : load_templates w with e | ts
    · exact ⟨rfl, rfl⟩
    · exact renderAll_frame sec ts w

/-- `reload` only issues a command: cron table and service list unchanged. -/
theorem reloadOp_frame (w : World) :
    (reloadOp w).1.cronTable = w.cronTable ∧ (reloadOp w).1.services = w.services := by
  unfold reloadOp runCmd
  by_cases h : w.execOk ["systemctl", "--user", "daemon-reload"] <;> simp [h]

/-- `write_state` only rewrites the state file. -/
theorem write_state_frame (w : World) :
    (write_state w).cronTable = w.cronTable ∧ (write_state w).services = w.services :=
  ⟨rfl, rfl⟩

/-- When `crontab(args)` returns normally the live table has been replaced by
the full concatenation for the current service list, and the service list is
unchanged. -/
theorem crontabOp_ok {u v : World} (h : crontabOp u = (v, none)) :
    v.cronTable = cronConcat u.services ∧ v.services = u.services := by
  unfold crontabOp runCmd at h
  by_cases h1 : u.execOk ["crontab", "-n", cronConcat u.services]
  · by_cases h2 : u.execOk ["crontab", cronConcat u.services]
    · simp [h1, h2, Prod.ext_iff] at h
      subst h
      exact ⟨rfl, rfl⟩
    · simp [h1, h2] at h
  · simp [h1] at h

/-! Claim theorems. -/

/-- Claim C1.  Evidence that the claim fails on the code: in a backup run
that mounts the bucket successfully and then hits an encryption failure for
one service's collected file, `backup` propagates the exception before
`unmount_bucket` is reached, so after the call returns the bucket is still
mounted and the temporary mount directory still exists. -/
theorem backup_leaks_mount_on_midpipeline_failure :
    (backupOp exampleBackupCryptFails).2 = some (Err.cryptError "data/db.sqlite") ∧
    (backupOp exampleBackupCryptFails).1.mountLive = true ∧
    (backupOp exampleBackupCryptFails).1.mountDirExists = true := by
  exact ⟨rfl, rfl, rfl⟩

/-- Claim C2.  Evidence that the claim fails on the code: deploying a
selected, not-yet-deployed service with one activation artifact raises
`NameError` (the symlink call `os.symlink(fullpath, dst)` at
services.py:165 names variables bound nowhere), so no link is created and
the in-memory services are left as they were. -/
theorem deploy_link_step_raises_name_error :
    (deployOp exampleDeployNew).2 = some Err.nameError ∧
    (deployOp exampleDeployNew).1.links = [] ∧
    (deployOp exampleDeployNew).1.services = exampleDeployNew.services := by
  exact ⟨rfl, rfl, rfl⟩

/-- Claim C3.  The already-deployed half of the claim holds: re-deploying a
deployed service performs no link operation, issues no exception, and leaves
the installed links, the live cron table and the persisted state entry
unchanged.  The not-yet-deployed half fails on the code: the full
installation sequence is never performed because the link step raises
`NameError`, aborting deploy before the crontab/secrets/state/reload tail. -/
theorem deploy_idempotence_and_fresh_install :
    (deployOp exampleDeployAgain).2 = none ∧
    (deployOp exampleDeployAgain).1.links = exampleDeployAgain.links ∧
    (deployOp exampleDeployAgain).1.cronTable = exampleDeployAgain.cronTable ∧
    (deployOp exampleDeployAgain).1.stateFile = exampleDeployAgain.stateFile ∧
    (deployOp exampleDeployFresh).2 = some Err.nameError ∧
    (deployOp exampleDeployFresh).1.stateFile = exampleDeployFresh.stateFile := by
  exact ⟨rfl, rfl, rfl, rfl, rfl, rfl⟩

/-- Claim C5.  Evidence that the claim fails on the code: with two selected,
not-yet-deployed services the first link failure aborts the whole deploy
(the exception propagates out of the loop), the second service is never
processed, no external command is issued and no state is written — instead
of reporting the error and continuing with the remaining services. -/
theorem deploy_link_failure_aborts_whole_operation :
    (deployOp exampleDeployTwo).2 = some Err.nameError ∧
    (deployOp exampleDeployTwo).1.services = exampleDeployTwo.services ∧
    (deployOp exampleDeployTwo).1.stateFile = none ∧
    (deployOp exampleDeployTwo).1.trace = [] := by
  exact ⟨rfl, rfl, rfl, rfl⟩

/-- Claim C6, counterexample.  When the stop command of the selected service
fails, `restart` propagates the `CalledProcessError` out of the stop phase:
the only command ever issued is the stop command, and no start command is
attempted — refuting the best-effort half of the claim. -/
theorem restart_stop_failure_skips_start :
    (restartOp exampleRestartStopFails).2 = some Err.processError ∧
    (restartOp exampleRestartStopFails).1.trace =
      [["systemctl", "--user", "stop", "web.service"]] := by
  exact ⟨rfl, rfl⟩

/-- Claim C7.  Evidence that the claim fails on the code: in a fetch whose
requested file is absent under the service's remote prefix, the decrypt step
raises, the statements deleting the two AWS credential variables are never
reached, and both variables remain in the process environment after the call
returns. -/
theorem fetch_failure_leaves_credentials_in_env :
    (fetchOp "report.txt" exampleFetchMissing).2 =
      some (Err.fileNotFound "web/report.txt") ∧
    envHas (fetchOp "report.txt" exampleFetchMissing).1.env "AWS_ACCESS_KEY_ID" = true ∧
    envHas (fetchOp "report.txt" exampleFetchMissing).1.env "AWS_SECRET_ACCESS_KEY" = true := by
  exact ⟨rfl, rfl, rfl⟩

/-- Claim C10.  A missing state file is caught (`FileNotFoundError`) and
normalised to the empty deployment map, so every configured service loads
with `deployed = false`; but a state file that exists and parses to a null
document is not normalised: `state.get("deployed", {})` is attribute access
on `None`, `load_services` raises `AttributeError`, and since `main` calls
`load_services` before building the parser and dispatching, the invocation
aborts before any command runs. -/
theorem state_load_missing_vs_null (cfg : List (String × Props)) :
    load_services cfg none =
      Except.ok (cfg.map (fun np => mkService np.1 np.2 false)) ∧
    load_services cfg (some none) = Except.error Err.attributeError := by
  exact ⟨rfl, rfl⟩

/-- Claim C6, amended.  `restart` is exactly `stop` then `start` over the
same selection: when the stop phase returns normally, restart behaves as
`start` run from the post-stop world; when the stop phase raises, restart
propagates that error from the post-stop world and the start phase is not
attempted. -/
theorem restart_is_stop_then_start (w : World) :
    ((stopOp w).2 = none → restartOp w = startOp (stopOp w).1) ∧
    (∀ e, (stopOp w).2 = some e → restartOp w = ((stopOp w).1, some e)) := by
  unfold restartOp
  rcases h : stopOp w with ⟨w1, e1⟩
  cases e1 <;> simp [h]

/-- Witness for `restart_is_stop_then_start` at concrete worlds: one where
the stop phase succeeds and one where it fails. -/
theorem restart_is_stop_then_start_witness :
    restartOp exampleRestartOk = startOp (stopOp exampleRestartOk).1 ∧
    restartOp exampleRestartStopFails =
      ((stopOp exampleRestartStopFails).1, some Err.processError) :=
  ⟨(restart_is_stop_then_start exampleRestartOk).1 rfl,
   (restart_is_stop_then_start exampleRestartStopFails).2 Err.processError rfl⟩

/-- The shared success tail `reload(write_state(...))` of deploy and
undeploy preserves the cron table and the service list. -/
theorem tail_frame {w3 v : World} {e : Option Err}
    (h : reloadOp (write_state w3) = (v, e)) :
    v.cronTable = w3.cronTable ∧ v.services = w3.services := by
  have h1 := reloadOp_frame (write_state w3)
  rw [h] at h1
  exact h1

/-- Claim C4.  After every deploy or undeploy that returns normally, the
installed scheduler job table equals the concatenation, in configuration
order, of the `crontab` entries of exactly the currently-deployed services
with non-empty entries (`cronConcat` over the final in-memory service list,
which `write_state` has just persisted).  In the model, `crontabOp` installs
this concatenation by writing it to a temporary file and replacing the whole
live table in the single `crontab <file>` invocation — the table field is
only ever assigned wholesale, never edited incrementally. -/
theorem schedule_table_matches_deployed_services (w : World) :
    ((deployOp w).2 = none →
      (deployOp w).1.cronTable = cronConcat (deployOp w).1.services) ∧
    ((undeployOp w).2 = none →
      (undeployOp w).1.cronTable = cronConcat (undeployOp w).1.services) := by
  constructor
  · intro h
    unfold deployOp at h ⊢
    rcases hdl : deployLoop w.services with ⟨svcs, e1⟩
    cases e1 with
    | some e => simp [hdl] at h
    | none =>
      simp only [hdl] at h ⊢
      rcases hct : crontabOp { w with services := svcs } with ⟨w2, e2⟩
      cases e2 with
      | some e => simp [hct] at h
      | none =>
        simp only [hct] at h ⊢
        rcases hse : secretsOp w2 with ⟨w3, e3⟩
        cases e3 with
        | some e => simp [hse] at h
        | none =>
          simp only [hse] at h ⊢
          rcases hre : reloadOp (write_state w3) with ⟨v, e4⟩
          simp only [hre] at h ⊢
          obtain ⟨t1, t2⟩ := tail_frame hre
          have s1 : w3.cronTable = w2.cronTable := by
            have := (secretsOp_frame w2).1
            rw [hse] at this
            exact this
          have s2 : w3.services = w2.services := by
            have := (secretsOp_frame w2).2
            rw [hse] at this
            exact this
          obtain ⟨c1, c2⟩ := crontabOp_ok hct
          rw [t1, t2, s1, s2, c1, c2]
  · intro h
    unfold undeployOp at h ⊢
    rcases hst : stopOp w with ⟨w1, e0⟩
    cases e0 with
    | some e => simp [hst] at h
    | none =>
      simp only [hst] at h ⊢
      rcases hct : crontabOp { w1 with
          services := (undeployLoop w1.services w1.links).1,
          links := (undeployLoop w1.services w1.links).2 } with ⟨w3, e2⟩
      cases e2 with
      | some e => simp [hct] at h
      | none =>
        simp only [hct] at h ⊢
        rcases hre : reloadOp (write_state w3) with ⟨v, e4⟩
        simp only [hre] at h ⊢
        obtain ⟨t1, t2⟩ := tail_frame hre
        obtain ⟨c1, c2⟩ := crontabOp_ok hct
        rw [t1, t2, c1, c2]

/-- Witness for `schedule_table_matches_deployed_services`: a concrete
successful deploy and a concrete successful undeploy. -/
theorem schedule_table_witness :
    (deployOp exampleDeployConverge).1.cronTable =
      cronConcat (deployOp exampleDeployConverge).1.services ∧
    (undeployOp exampleUndeployConverge).1.cronTable =
      cronConcat (undeployOp exampleUndeployConverge).1.services :=
  ⟨(schedule_table_matches_deployed_services exampleDeployConverge).1 rfl,
   (schedule_table_matches_deployed_services exampleUndeployConverge).2 rfl⟩

/-- If a listed secret path's template source is absent, the per-service
template-loading loop raises, whatever the accumulated dict. -/
theorem loadTemplatesService_err (files : List (String × String)) (p : String)
    (hmiss : assocGet files (p ++ ".jinja") = none) :
    ∀ paths acc, p ∈ paths →
      ∃ e, loadTemplatesService files paths acc = Except.error e := by
  intro paths
  induction paths with
  | nil => intro acc hmem; cases hmem
  | cons q rest ih =>
    intro acc hmem
    unfold loadTemplatesService
    rcases hq : assocGet files (q ++ ".jinja") with _ | c
    · exact ⟨Err.fileNotFound (q ++ ".jinja"), by simp [hq]⟩
    · rcases List.mem_cons.mp hmem with rfl | hmem2
      · rw [hq] at hmiss; cases hmiss
      · simpa [hq] using ih (dictInsert acc q c) hmem2

/-- If some deployed service lists a secret path with a missing template
source, `load_templates` raises, whatever the accumulated dict. -/
theorem loadTemplatesLoop_err (files : List (String × String)) (s : Service)
    (p : String) (hd : s.deployed = true) (hp : p ∈ s.secret_files)
    (hmiss : assocGet files (p ++ ".jinja") = none) :
    ∀ svcs acc, s ∈ svcs →
      ∃ e, loadTemplatesLoop files svcs acc = Except.error e := by
  intro svcs
  induction svcs with
  | nil => intro acc hmem; cases hmem
  | cons s0 rest ih =>
    intro acc hmem
    unfold loadTemplatesLoop
    rcases List.mem_cons.mp hmem with rfl | hmem2
    · rw [hd]
      obtain ⟨e, he⟩ := loadTemplatesService_err files p hmiss s.secret_files acc hp
      exact ⟨e, by simp [he]⟩
    · by_cases hd0 : s0.deployed
      · rw [if_pos hd0]
        rcases hsvc : loadTemplatesService files s0.secret_files acc with e | acc1
        · exact ⟨e, by simp [hsvc]⟩
        · simpa [hsvc] using ih acc1 hmem2
      · rw [if_neg hd0]
        exact ih acc hmem2

/-- Claim C8.  If any deployed service lists a secret path whose template
source (the path plus the `.jinja` suffix) is absent, the whole secret
rendering operation raises before opening any output file: `secrets` loads
all templates before its write loop, so on the error path the world — in
particular the filesystem — is returned unchanged. -/
theorem missing_template_aborts_secret_rendering (w : World) (s : Service)
    (p : String) (hs : s ∈ w.services) (hd : s.deployed = true)
    (hp : p ∈ s.secret_files)
    (hmiss : assocGet w.files (p ++ ".jinja") = none) :
    (∃ e, (secretsOp w).2 = some e) ∧ (secretsOp w).1 = w := by
  unfold secretsOp
  rcases hsd : w.secretsDoc with _ | sec
  · exact ⟨⟨Err.fileNotFound "secrets.yml", rfl⟩, rfl⟩
  · obtain ⟨e, he⟩ :=
      loadTemplatesLoop_err w.files s p hd hp hmiss w.services [] hs
    have hlt : load_templates w = Except.error e := he
    rw [hlt]
    exact ⟨⟨e, rfl⟩, rfl⟩

/-- Witness for `missing_template_aborts_secret_rendering`: a deployed
service listing `app.env` while `app.env.jinja` is absent from the
filesystem. -/
theorem missing_template_witness :
    (∃ e, (secretsOp exampleSecretsMissingTemplate).2 = some e) ∧
    (secretsOp exampleSecretsMissingTemplate).1 = exampleSecretsMissingTemplate :=
  missing_template_aborts_secret_rendering exampleSecretsMissingTemplate
    { name := "web", secret_files := ["app.env"], deployed := true } "app.env"
    (by simp [exampleSecretsMissingTemplate]) rfl (by simp) rfl

/-- Characterisation of the `status` loop: it changes the world only by
appending the scheduler queries for the deployed services with start
targets, and produces one row per service as described by `statusRowSpec`. -/
theorem statusLoop_eq (svcs : List Service) :
    ∀ w : World, statusLoop svcs w =
      ({ w with trace := w.trace ++ statusQueries svcs },
       svcs.map (statusRowSpec w.execOk)) := by
  induction svcs with
  | nil => intro w; simp [statusLoop, statusQueries]
  | cons s rest ih =>
    intro w
    by_cases hd : s.deployed
    · by_cases hst : s.start.isEmpty
      · simp [statusLoop, statusQueries, statusRowSpec, hd, hst, ih]
      · simp [statusLoop, statusQueries, statusRowSpec, runCmd, hd, hst, ih,
          List.append_assoc]
    · simp [statusLoop, statusQueries, statusRowSpec, hd, ih]

/-- Claim C9.  `status` reports one row per configured service, selected or
not: a not-deployed service is reported `deployed = no, running = no`
without any scheduler query; a deployed service with start targets is
reported running iff the unchecked `is-active` query over its start targets
succeeds (a failing query yields `no` rather than an exception — the
operation's type carries no error at all); a deployed service without start
targets is reported running.  The only commands issued are the `is-active`
queries for the deployed services with start targets. -/
theorem status_reports_all_services (w : World) :
    (statusOp w).2 = w.services.map (statusRowSpec w.execOk) ∧
    (statusOp w).1.trace = w.trace ++ statusQueries w.services := by
  unfold statusOp
  rw [statusLoop_eq w.services w]
  exact ⟨rfl, rfl⟩

/-- Witness for `status_reports_all_services` at a concrete world in which
the activation query fails: three rows, the deployed service with a start
target reported not running, the not-deployed one `no`/`no`, the deployed
target-free one running. -/
theorem status_reports_all_services_witness :
    (statusOp exampleStatusMixed).2 =
      exampleStatusMixed.services.map (statusRowSpec exampleStatusMixed.execOk) ∧
    (statusOp exampleStatusMixed).1.trace =
      exampleStatusMixed.trace ++ statusQueries exampleStatusMixed.services :=
  status_reports_all_services exampleStatusMixed

/-- Witness for `state_load_missing_vs_null` at a one-service configuration. -/
theorem state_load_missing_vs_null_witness :
    load_services [("web", {})] none =
      Except.ok ([("web", ({} : Props))].map (fun np => mkService np.1 np.2 false)) ∧
    load_services [("web", {})] (some none) = Except.error Err.attributeError :=
  state_load_missing_vs_null [("web", {})]
